import Mathlib

/-!
# Verification of the agent SSH server core (`agent/agentssh/agentssh.go`)

This file shallowly embeds the session-dispatch, command-building and
server-lifecycle logic of the in-workspace SSH server and proves the
specification claims about it.  Go strings are modelled as Lean `String`
(operating on the underlying `List Char`), machine integers as `Int`/`Nat`,
fallible code as `Except`, and the effectful session handler as a pure
function from its inputs (including the results of external calls) to the
list of observable events it performs, in order.
-/

namespace AgentSSH

/-! ## Go string primitives

Each helper mirrors the Go standard-library function it is named after,
working on the character list underlying a `String`. -/

/-- Go `strings.HasPrefix`. -/
def goStartsWith (s pre : String) : Bool :=
  pre.data.isPrefixOf s.data

/-- Go `strings.TrimPrefix`: drops `pre` from the front of `s` when present,
otherwise returns `s` unchanged. -/
def goTrimPre (s pre : String) : String :=
  if goStartsWith s pre then String.mk (s.data.drop pre.data.length) else s

/-- Go `unicode.IsSpace` (the Unicode `White_Space` property). -/
def goIsSpace (c : Char) : Bool :=
  c == ' ' || c == '\t' || c == '\n' || c.toNat == 0x0B || c.toNat == 0x0C ||
  c == '\r' || c.toNat == 0x85 || c.toNat == 0xA0 || c.toNat == 0x1680 ||
  (0x2000 ≤ c.toNat && c.toNat ≤ 0x200A) || c.toNat == 0x2028 ||
  c.toNat == 0x2029 || c.toNat == 0x202F || c.toNat == 0x205F ||
  c.toNat == 0x3000

/-- Go `strings.TrimSpace`. -/
def goTrimSpace (s : String) : String :=
  String.mk (((s.data.dropWhile goIsSpace).reverse.dropWhile goIsSpace).reverse)

/-- Go `strings.ToLower`, restricted to the code points whose Go (Unicode
simple) lowercase form is an ASCII letter: `A`–`Z`, U+0130 LATIN CAPITAL
LETTER I WITH DOT ABOVE (which Go lowers to `i`) and U+212A KELVIN SIGN
(which Go lowers to `k`); every other character maps to itself.  A
character outside those three classes lowers, under Go, to a non-ASCII
character, so every comparison the server performs on a lowercased string
— all against ASCII literals — is preserved by the restriction. -/
def goToLowerChar (c : Char) : Char :=
  if 'A' ≤ c ∧ c ≤ 'Z' then Char.ofNat (c.toNat + 32)
  else if c.toNat = 0x130 then 'i'
  else if c.toNat = 0x212A then 'k'
  else c

/-- Go `strings.ToLower` (see `goToLowerChar`). -/
def goToLower (s : String) : String :=
  String.mk (s.data.map goToLowerChar)

/-- `strings.SplitN(s, "\n", 2)[0]`: the text before the first newline. -/
def takeFirstLine (s : String) : String :=
  String.mk (s.data.takeWhile (fun c => c ≠ '\n'))

/-- Go `path/filepath.Base` on Unix: last element of the path after
stripping trailing slashes; `"."` for the empty path, `"/"` when the path
consists solely of slashes. -/
def filepathBase (p : String) : String :=
  if p = "" then "."
  else
    let cs := (p.data.reverse.dropWhile (fun c => c = '/')).reverse
    let last := (cs.reverse.takeWhile (fun c => c ≠ '/')).reverse
    if last = [] then "/" else String.mk last

/-! ## Constants (`agentssh.go` lines 40–88) -/

/-- `MagicSessionErrorCode`: session-level failure, distinct from process
exit codes. -/
def MagicSessionErrorCode : Int := 229

/-- `BlockedFileTransferErrorCode`. -/
def BlockedFileTransferErrorCode : Int := 65

/-- `BlockedFileTransferErrorMessage`. -/
def BlockedFileTransferErrorMessage : String := "File transfer has been disabled."

/-- `MagicSessionTypeEnvironmentVariable`. -/
def MagicSessionTypeEnvironmentVariable : String := "CODER_SSH_SESSION_TYPE"

/-- `ContainerEnvironmentVariable`. -/
def ContainerEnvironmentVariable : String := "CODER_CONTAINER"

/-- `ContainerUserEnvironmentVariable`. -/
def ContainerUserEnvironmentVariable : String := "CODER_CONTAINER_USER"

/-- `BlockedFileTransferCommands`. -/
def BlockedFileTransferCommands : List String := ["nc", "rsync", "scp", "sftp"]

/-- `MagicSessionType` enumeration. -/
inductive MagicSessionType where
  | unknown
  | ssh
  | vscode
  | jetbrains
deriving DecidableEq, Repr

/-! ## Session classifier (`extractMagicSessionType`, lines 305–330) -/

/-- The `switch MagicSessionType(strings.ToLower(rawType))` mapping of
`extractMagicSessionType`. -/
def classifyMagic (rawType : String) : MagicSessionType :=
  let lower := goToLower rawType
  if lower = "vscode" then MagicSessionType.vscode
  else if lower = "jetbrains" then MagicSessionType.jetbrains
  else if lower = "" ∨ lower = "ssh" then MagicSessionType.ssh
  else MagicSessionType.unknown

/-- `extractMagicSessionType` (lines 305–330): the loop keeps the last env
entry with string prefix `CODER_SSH_SESSION_TYPE` (note: without `=`),
trims the `CODER_SSH_SESSION_TYPE=` prefix from it when present, classifies
the lowercased result, and deletes from the env every entry with prefix
`CODER_SSH_SESSION_TYPE=`. -/
def extractMagicSessionType (env : List String) :
    MagicSessionType × String × List String :=
  let rawType := env.foldl
    (fun acc kv =>
      if goStartsWith kv MagicSessionTypeEnvironmentVariable then
        goTrimPre kv (MagicSessionTypeEnvironmentVariable ++ "=")
      else acc) ""
  (classifyMagic rawType, rawType,
    env.filter (fun kv =>
      !(goStartsWith kv (MagicSessionTypeEnvironmentVariable ++ "="))))

/-- The raw value selected by the loop of `extractMagicSessionType`,
phrased by the last matching occurrence rather than by a fold. -/
def lastRawMagic (env : List String) : String :=
  match env.reverse.find?
      (fun kv => goStartsWith kv MagicSessionTypeEnvironmentVariable) with
  | some kv => goTrimPre kv (MagicSessionTypeEnvironmentVariable ++ "=")
  | none => ""

/-- Modelled from the claim and spec wording for C4 ("the last occurrence of
the environment variable whose key equals `CODER_SSH_SESSION_TYPE`"): the
key of a `KEY=VALUE` entry is the text before the first `=`, and the type is
derived from the value of the last entry whose key equals the magic
variable. -/
def specMagicTypeByKey (env : List String) : MagicSessionType :=
  let value := env.foldl
    (fun acc kv =>
      if String.mk (kv.data.takeWhile (fun c => c ≠ '=')) =
          MagicSessionTypeEnvironmentVariable then
        String.mk ((kv.data.dropWhile (fun c => c ≠ '=')).drop 1)
      else acc) ""
  classifyMagic value

/-! ## Container classifier (`extractContainerInfo`, lines 361–375) -/

/-- `extractContainerInfo`: last values of `CODER_CONTAINER=` and
`CODER_CONTAINER_USER=`, and the env with both removed. -/
def extractContainerInfo (env : List String) : String × String × List String :=
  let container := env.foldl
    (fun acc kv =>
      if goStartsWith kv (ContainerEnvironmentVariable ++ "=") then
        goTrimPre kv (ContainerEnvironmentVariable ++ "=")
      else acc) ""
  let containerUser := env.foldl
    (fun acc kv =>
      if goStartsWith kv (ContainerUserEnvironmentVariable ++ "=") then
        goTrimPre kv (ContainerUserEnvironmentVariable ++ "=")
      else acc) ""
  (container, containerUser,
    env.filter (fun kv =>
      !(goStartsWith kv (ContainerEnvironmentVariable ++ "=") ||
        goStartsWith kv (ContainerUserEnvironmentVariable ++ "="))))

/-! ## File-transfer guard (`fileTransferBlocked`, lines 536–560) -/

/-- `Server.fileTransferBlocked`: permitted unless `BlockFileTransfer` is
set; then blocked for the `sftp` subsystem, or when the basename of the
first command token is one of `BlockedFileTransferCommands`. -/
def fileTransferBlocked (blockFileTransfer : Bool) (subsystem : String)
    (command : List String) : Bool :=
  if !blockFileTransfer then false
  else if subsystem = "sftp" then true
  else
    match command with
    | [] => false
    | c :: _ => decide (filepathBase c ∈ BlockedFileTransferCommands)

/-! ## Session dispatcher (`sessionHandler`, lines 377–529)

The handler is embedded as a pure function from the session's request data
and the results of the external calls it makes (session tracking, the x11
forwarder, the SFTP server, the runner) to the ordered list of observable
events it performs. -/

/-- Outcome of `sessionStart` (lines 562–602) as seen by the dispatcher:
success, an `exec.ExitError` carrying the process exit code, or any other
error. -/
inductive RunOutcome where
  | success
  | exitError (code : Int)
  | failure (msg : String)
deriving DecidableEq, Repr

/-- Observable actions of the session handler, in program order. -/
inductive Event where
  | reportConnection (t : MagicSessionType)
  | write (bytes : String)
  | exitStatus (code : Int)
  | closeSession
  | startProcess
  | disconnected (code : Int) (reason : String)
deriving DecidableEq, Repr

/-- The per-session request data (`ssh.Session` accessors). -/
structure SessionInput where
  env : List String
  subsystem : String
  command : List String
  hasX11 : Bool
deriving DecidableEq, Repr

/-- Outcome of `sftpHandler` (lines 807–852): `sftp.NewServer` may fail
before any `Exit` (the handler returns the wrapped error); otherwise
`server.Serve` ends cleanly (`nil`/`io.EOF`, followed by `Exit(0)`) or
with an error (followed by `Exit(1)`). -/
inductive SftpOutcome where
  | initFailed (msg : String)
  | serveClean
  | serveFailed (msg : String)
deriving DecidableEq, Repr

/-- Results of the dispatcher's external calls, plus the `Config` bits it
reads. `admitted` is the result of `trackSession(session, true)`;
`x11Handled` the result of `x11Forwarder.x11Handler`; `sftpResult` the
outcome of `sftpHandler`; `runResult` the error returned by
`sessionStart`; `processStarted` whether the runner got as far as starting
the child. -/
structure HandlerInput where
  blockFileTransfer : Bool
  experimentalContainers : Bool
  admitted : Bool
  x11Handled : Bool
  sftpResult : SftpOutcome
  runResult : RunOutcome
  processStarted : Bool
deriving DecidableEq, Repr

/-- `sessionCloseTracker.track` (lines 341–345): `exitOnce` keeps the first
code only. -/
def trackOnce (st : Option Int) (code : Int) : Option Int :=
  match st with
  | some c => some c
  | none => some code

/-- `sessionCloseTracker.exitCode` (lines 347–349): the stored code, `0`
when nothing was tracked (the `atomic.Int64` zero value). -/
def exitCodeOf (st : Option Int) : Int := st.getD 0

/-- `session.Exit(code)` through the `sessionCloseTracker` wrapper: tracks
the first code and emits the exit-status event. -/
def sessExit (b : List Event × Option Int) (code : Int) :
    List Event × Option Int :=
  (b.1 ++ [Event.exitStatus code], trackOnce b.2 code)

/-- The blocked-transfer message bytes: `"\x02File transfer has been
disabled.\n"`. -/
def ftMessage : String := "\x02" ++ BlockedFileTransferErrorMessage ++ "\n"

/-- The dispatch body of `sessionHandler` after admission (lines 436–528):
events performed, the `sessionCloseTracker` state, and the `closeCause`
reason. -/
def handlerBody (hin : HandlerInput) (sess : SessionInput)
    (env1 : List String) : List Event × Option Int × String :=
  if fileTransferBlocked hin.blockFileTransfer sess.subsystem sess.command then
    -- lines 436–447
    let writes := if sess.subsystem = "" then [Event.write ftMessage] else []
    let b := sessExit (writes, none) BlockedFileTransferErrorCode
    (b.1, b.2, "file transfer blocked")
  else
    let container := (extractContainerInfo env1).1
    if sess.subsystem = "" then
      -- lines 477–528: x11 setup then sessionStart and exit-code mapping
      if sess.hasX11 ∧ !hin.x11Handled then
        let b := sessExit ([], none) 1
        (b.1, b.2, "x11 handler failed")
      else
        let startEvts := if hin.processStarted then [Event.startProcess] else []
        match hin.runResult with
        | RunOutcome.exitError c =>
          let code : Int := if c = -1 then 255 else c
          let b := sessExit (startEvts, none) code
          (b.1, b.2, "process exited with error status: " ++ toString c)
        | RunOutcome.failure m =>
          let b := sessExit (startEvts, none) MagicSessionErrorCode
          (b.1, b.2, m)
        | RunOutcome.success =>
          let b := sessExit (startEvts, none) 0
          (b.1, b.2, "")
    else if sess.subsystem = "sftp" then
      -- lines 459–469 with `sftpHandler` (lines 807–852)
      if hin.experimentalContainers ∧ container ≠ "" then
        let b := sessExit ([], none) 1
        (b.1, b.2, "sftp not yet supported with containers")
      else
        match hin.sftpResult with
        | SftpOutcome.initFailed m =>
          ([], none, "initialize sftp server: " ++ m)
        | SftpOutcome.serveClean =>
          let b := sessExit ([], none) 0
          (b.1, b.2, "")
        | SftpOutcome.serveFailed m =>
          let b := sessExit ([], none) 1
          (b.1, b.2, "sftp server closed with error: " ++ m)
    else
      -- lines 470–475
      let b := sessExit ([], none) 1
      (b.1, b.2, "unsupported subsystem: " ++ sess.subsystem)

/-- `Server.sessionHandler` (lines 377–529) as an event trace.  A session
refused by `trackSession` still reports the connection, closes the session
and fires `disconnected(1, …)`; an admitted session is counted, wrapped in
the `sessionCloseTracker` when its type is not `jetbrains`, dispatched, and
its deferred `disconnected` callback fires last with the tracked exit
code. -/
def sessionHandler (hin : HandlerInput) (sess : SessionInput) : List Event :=
  let ext := extractMagicSessionType sess.env
  let magicType := ext.1
  let env1 := ext.2.2
  if !hin.admitted then
    [Event.reportConnection magicType, Event.closeSession,
      Event.disconnected 1 "unable to accept new session, server is closing"]
  else
    let reportSession := magicType ≠ MagicSessionType.jetbrains
    let body := handlerBody hin sess env1
    if reportSession then
      Event.reportConnection magicType :: body.1 ++
        [Event.disconnected (exitCodeOf body.2.1) body.2.2]
    else
      body.1

/-- The session types carried by `reportConnection` events of a trace. -/
def reportEvents (tr : List Event) : List MagicSessionType :=
  tr.filterMap fun e =>
    match e with
    | Event.reportConnection t => some t
    | _ => none

/-- The codes carried by `disconnected` events of a trace. -/
def disconnectCodes (tr : List Event) : List Int :=
  tr.filterMap fun e =>
    match e with
    | Event.disconnected c _ => some c
    | _ => none

/-- The codes carried by `exitStatus` events of a trace. -/
def exitStatusCodes (tr : List Event) : List Int :=
  tr.filterMap fun e =>
    match e with
    | Event.exitStatus c => some c
    | _ => none

/-- The byte strings written to the session in a trace. -/
def writtenBytes (tr : List Event) : List String :=
  tr.filterMap fun e =>
    match e with
    | Event.write s => some s
    | _ => none

/-- Whether an event is a `disconnected` callback invocation. -/
def isDisconnectedEv : Event → Bool
  | Event.disconnected _ _ => true
  | _ => false

/-- Handler input for the C2 witness: a blocked `scp` exec session. -/
def w2Hin : HandlerInput :=
  { blockFileTransfer := true, experimentalContainers := false,
    admitted := true, x11Handled := false, sftpResult := SftpOutcome.serveClean,
    runResult := RunOutcome.success, processStarted := false }

/-- Session input for the C2 witness. -/
def w2Sess : SessionInput :=
  { env := [], subsystem := "", command := ["/usr/bin/scp", "-t", "/tmp"],
    hasX11 := false }

/-- Handler input for the C3 witness: a signal-killed process
(`ExitError(-1)`). -/
def w3Hin : HandlerInput :=
  { blockFileTransfer := false, experimentalContainers := false,
    admitted := true, x11Handled := false, sftpResult := SftpOutcome.serveClean,
    runResult := RunOutcome.exitError (-1), processStarted := true }

/-- Session input for the C3 witness. -/
def w3Sess : SessionInput :=
  { env := [], subsystem := "", command := ["sleep", "60"], hasX11 := false }

/-! ## POSIX shell-word splitting (`kballard/go-shellquote`, `Split`)

`CreateCommand` parses shebang lines with `shellquote.Split`; the library's
word splitter is embedded below: a raw/single-quote/double-quote state
machine over the input characters. -/

/-- Errors of `shellquote.Split`. -/
inductive SQErr where
  | unterminatedSingle
  | unterminatedDouble
  | unterminatedEscape
deriving DecidableEq, Repr

/-- `splitChars = " \n\t"`. -/
def sqSplitChars : List Char := [' ', '\n', '\t']

/-- `doubleEscapeChars`: the characters a backslash escapes inside double
quotes (dollar, backquote, double quote, newline, backslash). -/
def sqDoubleEscapeChars : List Char :=
  ['$', Char.ofNat 0x60, '"', '\n', '\\']

/-- The scanner state of `splitWord`: outside quotes, inside single quotes,
inside double quotes. -/
inductive SQMode where
  | raw
  | single
  | double
deriving DecidableEq, Repr

/-- `shellquote.splitWord`: scans one word, returning the accumulated word
and the unconsumed remainder. -/
def splitWordAux (m : SQMode) (buf : List Char) (input : List Char) :
    Except SQErr (List Char × List Char) :=
  match m, input with
  | SQMode.raw, [] => Except.ok (buf, [])
  | SQMode.raw, c :: cs =>
    if c = '\'' then splitWordAux SQMode.single buf cs
    else if c = '"' then splitWordAux SQMode.double buf cs
    else if c = '\\' then
      match cs with
      | [] => Except.error SQErr.unterminatedEscape
      | c2 :: cs2 =>
        if c2 = '\n' then splitWordAux SQMode.raw buf cs2
        else splitWordAux SQMode.raw (buf ++ [c2]) cs2
    else if c ∈ sqSplitChars then Except.ok (buf, cs)
    else splitWordAux SQMode.raw (buf ++ [c]) cs
  | SQMode.single, [] => Except.error SQErr.unterminatedSingle
  | SQMode.single, c :: cs =>
    if c = '\'' then splitWordAux SQMode.raw buf cs
    else splitWordAux SQMode.single (buf ++ [c]) cs
  | SQMode.double, [] => Except.error SQErr.unterminatedDouble
  | SQMode.double, c :: cs =>
    if c = '"' then splitWordAux SQMode.raw buf cs
    else if c = '\\' then
      match cs with
      | [] => Except.error SQErr.unterminatedDouble
      | c2 :: cs2 =>
        if c2 ∈ sqDoubleEscapeChars then
          if c2 = '\n' then splitWordAux SQMode.double buf cs2
          else splitWordAux SQMode.double (buf ++ [c2]) cs2
        else splitWordAux SQMode.double (buf ++ ['\\', c2]) cs2
    else splitWordAux SQMode.double (buf ++ [c]) cs

/-- The word-scanning loop of `shellquote.Split`, with explicit fuel so
that it is structurally recursive (and hence evaluates inside the kernel).
Every loop iteration of the Go code consumes at least one input character
(`splitWordAux_raw_cons_lt`), so fuel `input.length + 1` — what `sqSplit`
passes — always suffices and the out-of-fuel branch is unreachable. -/
def sqSplitFuel (fuel : Nat) (input : List Char) :
    Except SQErr (List (List Char)) :=
  match fuel with
  | 0 => Except.error SQErr.unterminatedEscape
  | fuel + 1 =>
    match input with
    | [] => Except.ok []
    | c :: cs =>
      if c ∈ sqSplitChars then sqSplitFuel fuel cs
      else if c = '\\' ∧ cs = [] then Except.error SQErr.unterminatedEscape
      else if c = '\\' ∧ cs.head? = some '\n' then sqSplitFuel fuel cs.tail
      else
        match splitWordAux SQMode.raw [] (c :: cs) with
        | Except.error e => Except.error e
        | Except.ok (w, rem) =>
          match sqSplitFuel fuel rem with
          | Except.error e => Except.error e
          | Except.ok ws => Except.ok (w :: ws)

/-- `shellquote.Split`: splits an input into shell words, skipping run-on
split characters and eliding escaped newlines between words. -/
def sqSplit (input : List Char) : Except SQErr (List (List Char)) :=
  sqSplitFuel (input.length + 1) input

/-- `shellquote.Split` over strings. -/
def shellquoteSplit (s : String) : Except SQErr (List String) :=
  (sqSplit s.data).map (fun ws => ws.map String.mk)

/-! ## Command builder (`CommandEnv` lines 854–895, `CreateCommand` lines
904–982) -/

/-- `codersdk.BannerConfig`. -/
structure BannerConfig where
  enabled : Bool
  message : String
deriving DecidableEq, Repr

/-- The `Config` fields the command builder and PTY runner read.
`workingDirectory` and `motdFile` stand for the `WorkingDirectory()` and
`MOTDFile()` accessors, `updateEnv` for the `UpdateEnv` hook, `banners` for
`AnnouncementBanners()`. -/
structure SrvConfig where
  workingDirectory : String
  updateEnv : List String → Except String (List String)
  motdFile : String
  banners : List BannerConfig

/-- `usershell.EnvInfoer` as consumed by `CommandEnv`/`CreateCommand`:
`username` is `User().Username`, `shellOf u` is `Shell(u)`, `homeDir` is
`HomeDir()`, `environ` is `Environ()`, and `modifyCommand` is
`ModifyCommand` (the identity for the default `SystemEnvInfo`). -/
structure EnvInfoer where
  username : Except String String
  shellOf : String → Except String String
  homeDir : Except String String
  environ : List String
  modifyCommand : String → List String → String × List String

/-- `Server.CommandEnv` (lines 854–895).  `statOk dir` models
`os.Stat(dir)` succeeding; Go falls back to the home directory when the
configured directory is empty or fails to stat. -/
def CommandEnv (statOk : String → Bool) (cfg : SrvConfig) (ei : EnvInfoer)
    (addEnv : List String) : Except String (String × String × List String) :=
  match ei.username with
  | Except.error e => Except.error ("get current user: " ++ e)
  | Except.ok username =>
    match ei.shellOf username with
    | Except.error e => Except.error ("get user shell: " ++ e)
    | Except.ok shell =>
      let dir := cfg.workingDirectory
      let dirRes : Except String String :=
        if dir = "" ∨ statOk dir = false then
          match ei.homeDir with
          | Except.error e => Except.error ("get home dir: " ++ e)
          | Except.ok homedir => Except.ok homedir
        else Except.ok dir
      match dirRes with
      | Except.error e => Except.error e
      | Except.ok dir =>
        let env := ei.environ ++ addEnv
        let env := env ++
          ["USER=" ++ username, "LOGNAME=" ++ username, "SHELL=" ++ shell]
        match cfg.updateEnv env with
        | Except.error e => Except.error ("apply env: " ++ e)
        | Except.ok env => Except.ok (shell, dir, env)

/-- Failure modes of `CreateCommand`: a `CommandEnv` error, a shebang-split
error, or the `words[0]` index panic the Go code performs when the shebang
splits into zero words. -/
inductive CreateCmdErr where
  | envErr (msg : String)
  | splitShebang (e : SQErr)
  | indexPanic
deriving DecidableEq, Repr

/-- The word list of the shebang line: first line of the trimmed script,
trimmed, with `#!` removed, split by `shellquote.Split` (lines 930–933). -/
def shebangWords (script : String) : Except SQErr (List String) :=
  shellquoteSplit (goTrimPre (goTrimSpace (takeFirstLine (goTrimSpace script))) "#!")

/-- The argv computation of `CreateCommand` (lines 916–955): default
`[shell, caller, script]`, shebang override, and the empty-script
login-shell case. -/
def createCommandArgv (isWindows : Bool) (shell script : String) :
    Except CreateCmdErr (String × List String) :=
  let caller := if isWindows then "/c" else "-c"
  let step1 : Except CreateCmdErr (String × List String) :=
    if goStartsWith (goTrimSpace script) "#!" then
      match shebangWords script with
      | Except.error e => Except.error (CreateCmdErr.splitShebang e)
      | Except.ok [] => Except.error CreateCmdErr.indexPanic
      | Except.ok (w0 :: ws) => Except.ok (w0, ws ++ [caller, script])
    else Except.ok (shell, [caller, script])
  match step1 with
  | Except.error e => Except.error e
  | Except.ok (name, args) =>
    let args := if script.length = 0 then
        (if isWindows then [] else ["-l"])
      else args
    Except.ok (name, args)

/-- The command descriptor produced by `CreateCommand` (`pty.Cmd`). -/
structure PtyCmd where
  name : String
  args : List String
  dir : String
  env : List String
deriving DecidableEq, Repr

/-- `"SSH_CLIENT=0.0.0.0 0 0"` (line 978). -/
def sshClientEnv : String := "SSH_CLIENT=0.0.0.0 0 0"

/-- `"SSH_CONNECTION=0.0.0.0 0 0.0.0.0 0"` (line 979). -/
def sshConnectionEnv : String := "SSH_CONNECTION=0.0.0.0 0 0.0.0.0 0"

/-- `Server.CreateCommand` (lines 904–982): build env and working
directory via `CommandEnv`, compute argv (with shebang handling), let
`ModifyCommand` rewrite name/args, then append the placeholder
`SSH_CLIENT`/`SSH_CONNECTION` variables last. -/
def CreateCommand (isWindows : Bool) (statOk : String → Bool)
    (cfg : SrvConfig) (ei : EnvInfoer) (script : String)
    (addEnv : List String) : Except CreateCmdErr PtyCmd :=
  match CommandEnv statOk cfg ei addEnv with
  | Except.error e => Except.error (CreateCmdErr.envErr e)
  | Except.ok (shell, dir, env) =>
    match createCommandArgv isWindows shell script with
    | Except.error e => Except.error e
    | Except.ok (name, args) =>
      let modified := ei.modifyCommand name args
      Except.ok (PtyCmd.mk modified.1 modified.2 dir
        (env ++ [sshClientEnv, sshConnectionEnv]))

/-- A concrete `EnvInfoer` (the default `SystemEnvInfo` behavior with fixed
user data) used by the command-builder witnesses. -/
def wEnvInfo : EnvInfoer :=
  { username := Except.ok "coder",
    shellOf := fun _ => Except.ok "/bin/bash",
    homeDir := Except.ok "/home/coder",
    environ := ["PATH=/usr/bin"],
    modifyCommand := fun n a => (n, a) }

/-- A concrete config used by the command-builder witnesses. -/
def wCfg : SrvConfig :=
  { workingDirectory := "", updateEnv := Except.ok, motdFile := "",
    banners := [] }

/-! ## Banner and MOTD output (`startPTYSession` lines 671–699,
`isQuietLogin` lines 1226–1241, `showMOTD` lines 1259–1275,
`writeWithCarriageReturn` lines 1279–1291)

The session channel is modelled as a `Sink` accepting line writes: an
optional budget of successful line writes (`none` = writes never fail)
makes write errors expressible. -/

/-- The session output channel: accumulated bytes and an optional number
of line writes that will still succeed. -/
structure Sink where
  budgetLines : Option Nat
  out : String
deriving DecidableEq, Repr

/-- One `fmt.Fprint` of a line into the session: succeeds and appends
while the budget allows. -/
def sinkWriteLine (sk : Sink) (line : String) : Sink × Bool :=
  match sk.budgetLines with
  | none => ({ sk with out := sk.out ++ line }, true)
  | some 0 => (sk, false)
  | some (n + 1) => ({ budgetLines := some n, out := sk.out ++ line }, true)

/-- `bufio.ScanLines` drops one trailing `'\r'` from each line. -/
def dropCR (l : List Char) : List Char :=
  if l.getLast? = some '\r' then l.dropLast else l

/-- `bufio.MaxScanTokenSize`: the default maximum token size of a
`bufio.Scanner`, 64 KiB. -/
def MaxScanTokenSize : Nat := 65536

/-- UTF-8 byte size of a character (Go strings and the scanner buffer are
byte-based). -/
def charUTF8Size (c : Char) : Nat :=
  if c.toNat ≤ 0x7F then 1
  else if c.toNat ≤ 0x7FF then 2
  else if c.toNat ≤ 0xFFFF then 3
  else 4

/-- UTF-8 byte length of a line. -/
def utf8Len (l : List Char) : Nat := (l.map charUTF8Size).sum

/-- The raw `bufio.ScanLines` tokens before the carriage-return strip: the
data split on `'\n'`, with no empty final token when the data ends in a
newline and no tokens at all for empty data. -/
def rawScanTokens (s : List Char) : List (List Char) :=
  match s with
  | [] => []
  | _ =>
    let parts := s.splitOn '\n'
    if s.getLast? = some '\n' then parts.dropLast else parts

/-- A raw token fits the scanner's buffer: its byte length is below
`MaxScanTokenSize` (at the limit the buffer fills without finding the
token's end and `Scan` fails with `bufio.ErrTooLong`). -/
def lineFits (l : List Char) : Bool := decide (utf8Len l < MaxScanTokenSize)

/-- A `bufio.Scanner` over the data with the `ScanLines` split function and
the default token-size limit: the tokens emitted by successive `Scan` calls
(each with one trailing `'\r'` dropped) stop at the first over-long line;
the flag reports whether the scan ended in `bufio.ErrTooLong`. -/
def scanLines (s : List Char) : List (List Char) × Bool :=
  (((rawScanTokens s).takeWhile lineFits).map dropCR,
    !(rawScanTokens s).all lineFits)

/-- Every line of the text fits the scanner limit: `writeWithCarriageReturn`
reads the whole text without `bufio.ErrTooLong`. -/
def linesFit (s : String) : Bool := (rawScanTokens s.data).all lineFits

/-- The scan loop of `writeWithCarriageReturn`: write each scanned line
with a trailing CRLF; a failed write aborts at once with a `write line:`
error. -/
def writeLinesCR (sk : Sink) : List (List Char) → Sink × Except String Unit
  | [] => (sk, Except.ok ())
  | l :: ls =>
    match sinkWriteLine sk (String.mk l ++ "\r\n") with
    | (sk', true) => writeLinesCR sk' ls
    | (sk', false) => (sk', Except.error "write line: sink error")

/-- `writeWithCarriageReturn` (lines 1279–1291): the lines `Scan` produced
are written in order; a failed write returns its `write line:` error
immediately; otherwise, when the scan stopped at an over-long line,
`s.Err()` is `bufio.ErrTooLong` and the function returns the `read line:`
error (the over-long line and everything after it were never written). -/
def writeWCR (sk : Sink) (src : String) : Sink × Except String Unit :=
  match writeLinesCR sk (scanLines src.data).1 with
  | (sk', Except.ok _) =>
    if (scanLines src.data).2 then
      (sk', Except.error "read line: bufio.Scanner: token too long")
    else (sk', Except.ok ())
  | (sk', Except.error e) => (sk', Except.error e)

/-- `showAnnouncementBanner` (lines 1245–1253): emit the trimmed message
plus a blank line, only when enabled and non-blank. -/
def showAnnouncementBanner (sk : Sink) (banner : BannerConfig) :
    Sink × Except String Unit :=
  if banner.enabled = true ∧ banner.message ≠ "" then
    writeWCR sk (goTrimSpace banner.message ++ "\n\n")
  else (sk, Except.ok ())

/-- `isLoginShell` (lines 1219–1221). -/
def isLoginShell (rawCommand : String) : Bool :=
  rawCommand.length == 0

/-- `isQuietLogin` (lines 1226–1241): always quiet unless a login shell;
best-effort not quiet when the home directory is unknown; otherwise quiet
iff `$HOME/.hushlogin` stats successfully.  `filepath.Join(homedir,
".hushlogin")` is modelled as concatenation (exact for clean home
paths). -/
def isQuietLogin (homeDir : Except String String)
    (statExists : String → Bool) (rawCommand : String) : Bool :=
  if !isLoginShell rawCommand then true
  else
    match homeDir with
    | Except.error _ => false
    | Except.ok h => statExists (h ++ "/.hushlogin")

/-- Result of `fs.Open` on the MOTD path. -/
inductive OpenResult where
  | notExist
  | openFailed (msg : String)
  | content (text : String)
deriving DecidableEq, Repr

/-- `showMOTD` (lines 1259–1275): nothing for an empty filename or a
missing file; an error when the file cannot be opened; otherwise the file
contents with CRLF translation. -/
def showMOTD (openFile : String → OpenResult) (sk : Sink)
    (filename : String) : Sink × Except String Unit :=
  if filename = "" then (sk, Except.ok ())
  else
    match openFile filename with
    | OpenResult.notExist => (sk, Except.ok ())
    | OpenResult.openFailed m => (sk, Except.error ("open MOTD: " ++ m))
    | OpenResult.content text => writeWCR sk text

/-- The banner loop of `startPTYSession` (lines 680–691): emit banners in
order; on the first banner error, log and `break` (output so far is
kept). -/
def showBanners (sk : Sink) : List BannerConfig → Sink
  | [] => sk
  | b :: rest =>
    match showAnnouncementBanner sk b with
    | (sk', Except.ok _) => showBanners sk' rest
    | (sk', Except.error _) => sk'

/-- The environment of `startPTYSession` beyond the command: the home
directory lookup (`userHomeDir`), the stat test used by `isQuietLogin`,
the MOTD file system, the PTY request's `TERM`, and the result of
`pty.Start`. -/
structure PTYRunInput where
  homeDir : Except String String
  statExists : String → Bool
  openFile : String → OpenResult
  term : String
  startErr : Option String

/-- `startPTYSession` through `pty.Start` (lines 671–711): banners on a
login shell, MOTD unless quiet login (errors logged, not propagated),
`TERM` appended to the env, then the process start.  The result is the
session output together with `Except.ok` of the final command env when the
process started, or the start error. -/
def startPTYSessionModel (cfg : SrvConfig) (inp : PTYRunInput) (sk : Sink)
    (rawCommand : String) (env : List String) :
    Sink × Except String (List String) :=
  let sk := if isLoginShell rawCommand then showBanners sk cfg.banners else sk
  let sk :=
    if !isQuietLogin inp.homeDir inp.statExists rawCommand then
      (showMOTD inp.openFile sk cfg.motdFile).1
    else sk
  let env := env ++ ["TERM=" ++ inp.term]
  match inp.startErr with
  | some e => (sk, Except.error ("start command: " ++ e))
  | none => (sk, Except.ok env)

/-- Concatenation of a list of strings. -/
def strConcat : List String → String
  | [] => ""
  | s :: rest => s ++ strConcat rest

/-- CRLF translation of a text, as `writeWithCarriageReturn` emits on a
channel that accepts every write: the scanned lines — which stop at the
first line over the scanner limit — each followed by CRLF. -/
def crlfText (s : String) : String :=
  strConcat ((scanLines s.data).1.map (fun l => String.mk l ++ "\r\n"))

/-- The fit condition under which `showAnnouncementBanner` cannot hit the
scanner limit: vacuous for a disabled or blank banner, otherwise every line
of the trimmed message (plus the appended blank line) fits. -/
def bannerFits (b : BannerConfig) : Bool :=
  if b.enabled = true ∧ b.message ≠ "" then
    linesFit (goTrimSpace b.message ++ "\n\n")
  else true

/-- What one banner contributes to the output. -/
def bannerText (b : BannerConfig) : String :=
  if b.enabled = true ∧ b.message ≠ "" then
    crlfText (goTrimSpace b.message ++ "\n\n")
  else ""

/-- What the MOTD pass contributes to the output on a login shell. -/
def motdText (inp : PTYRunInput) (filename : String) : String :=
  if isQuietLogin inp.homeDir inp.statExists "" then ""
  else if filename = "" then ""
  else
    match inp.openFile filename with
    | OpenResult.notExist => ""
    | OpenResult.openFailed _ => ""
    | OpenResult.content text => crlfText text

/-- Config for the C9 counterexample: a configured MOTD file that does not
exist on the filesystem. -/
def cexC9Cfg : SrvConfig :=
  { workingDirectory := "", updateEnv := Except.ok,
    motdFile := "/etc/motd", banners := [] }

/-- Config for the C9 witness: one enabled banner and a configured MOTD
file. -/
def w9Cfg : SrvConfig :=
  { workingDirectory := "", updateEnv := Except.ok,
    motdFile := "/etc/motd",
    banners := [{ enabled := true, message := "Welcome to the workspace" }] }

/-- PTY-run environment for the C9 witness: no `.hushlogin`, an MOTD file
with content, process start succeeds. -/
def w9Inp : PTYRunInput :=
  { homeDir := Except.ok "/home/coder", statExists := fun _ => false,
    openFile := fun _ => OpenResult.content "Up to date.\n", term := "xterm",
    startErr := none }

/-- PTY-run environment for the C9 counterexample: no `.hushlogin`, no
MOTD file, process start succeeds. -/
def cexC9Inp : PTYRunInput :=
  { homeDir := Except.ok "/home/coder", statExists := fun _ => false,
    openFile := fun _ => OpenResult.notExist, term := "xterm",
    startErr := none }

/-! ## Resource tracker and server lifecycle (lines 986–1190)

Listeners, connections, sessions and processes are identified by numbers;
`closing : Bool` models `s.closing != nil`.  The model is sequential: each
tracker call is a function of the current state, and `Close` is a single
step producing the state observed when it returns together with the
ordered close actions it performs. -/

/-- The tracked server state. -/
structure ServerState where
  listeners : List Nat
  conns : List (Nat × Nat)
  sessions : List Nat
  processes : List Nat
  closing : Bool
  hostSigners : Nat
deriving DecidableEq, Repr

/-- Result of `trackListener(l, true)`: the add blocks while `closing` is
set (waiting for the close to finish), otherwise it registers the
listener. -/
inductive ListenerTrack where
  | blocked
  | added (s' : ServerState)
deriving DecidableEq, Repr

/-- `trackListener` add (lines 1037–1052). -/
def trackListenerAdd (s : ServerState) (l : Nat) : ListenerTrack :=
  if s.closing = true then ListenerTrack.blocked
  else ListenerTrack.added { s with listeners := l :: s.listeners }

/-- `trackConn` add (lines 1062–1080): fails while closing or when the
parent listener is no longer tracked. -/
def trackConnAdd (s : ServerState) (l : Nat) (c : Nat) :
    Bool × ServerState :=
  if s.closing = true ∨ l ∉ s.listeners then (false, s)
  else (true, { s with conns := (l, c) :: s.conns })

/-- `trackSession` add (lines 1090–1105). -/
def trackSessionAdd (s : ServerState) (ss : Nat) : Bool × ServerState :=
  if s.closing = true then (false, s)
  else (true, { s with sessions := ss :: s.sessions })

/-- `trackProcess` add (lines 1111–1126). -/
def trackProcessAdd (s : ServerState) (p : Nat) : Bool × ServerState :=
  if s.closing = true then (false, s)
  else (true, { s with processes := p :: s.processes })

/-- The externally visible actions `Close` performs, in order. -/
inductive CloseAction where
  | closeListener (l : Nat)
  | closeSession (ss : Nat)
  | closeConn (c : Nat × Nat)
  | signalProcess (p : Nat)
  | closeSSHServer
  | closeX11
deriving DecidableEq, Repr

/-- `Server.Close` (lines 1130–1190).  A caller that finds `closing`
already set waits on it and returns the error `"server is closed"`,
leaving the state to the in-flight closer.  The first caller installs
`closing`, closes every listener, then every session (via the channel,
not `Exit`), then every connection, signals every tracked process
(`cmdCancel`, the group SIGHUP), closes the SSH server and the X11
forwarder, waits for all handler goroutines to deregister (draining the
tracked sets), clears `closing`, and returns the SSH library's close
result. -/
def closeServer (s : ServerState) (srvCloseErr : Option String) :
    ServerState × List CloseAction × Except String Unit :=
  if s.closing = true then (s, [], Except.error "server is closed")
  else
    ({ s with
        listeners := [], conns := [], sessions := [],
        processes := [], closing := false },
      s.listeners.map CloseAction.closeListener ++
        s.sessions.map CloseAction.closeSession ++
        s.conns.map CloseAction.closeConn ++
        s.processes.map CloseAction.signalProcess ++
        [CloseAction.closeSSHServer, CloseAction.closeX11],
      match srvCloseErr with
      | some m => Except.error m
      | none => Except.ok ())

/-- Outcome of `Serve(l)` (lines 986–1012) up to entering the accept
loop. -/
inductive ServeOutcome where
  | noHostKeys
  | wouldBlock
  | serving (s' : ServerState)
deriving DecidableEq, Repr

/-- `Server.Serve` admission: rejected without host keys; otherwise the
listener is tracked (blocking while a close is in flight). -/
def serve (s : ServerState) (l : Nat) : ServeOutcome :=
  if s.hostSigners = 0 then ServeOutcome.noHostKeys
  else
    match trackListenerAdd s l with
    | ListenerTrack.blocked => ServeOutcome.wouldBlock
    | ListenerTrack.added s' => ServeOutcome.serving s'

/-- Server state for the C7 witness: one of everything tracked, while a
close is in flight. -/
def w7Closing : ServerState :=
  { listeners := [1], conns := [(1, 2)], sessions := [3], processes := [4],
    closing := true, hostSigners := 1 }

/-- Server state for the C7 witness: the same server when no close is in
flight. -/
def w7Open : ServerState :=
  { listeners := [1], conns := [(1, 2)], sessions := [3], processes := [4],
    closing := false, hostSigners := 1 }

/-- Modelled from the spec: the non-PTY runner's command as configured by
`startNonPTYSession` (lines 604–614).  `cmdSysProcAttr` and `cmdCancel`
live in platform files outside the embedded sources; per the spec the
command is attached to its own process group, and Go's `os/exec` contract
is that the `Cancel` hook — non-nil by default for a context-bound
command — is invoked when the context ends. -/
structure ExecCmd where
  name : String
  args : List String
  setpgid : Bool
  hasCancel : Bool
deriving DecidableEq, Repr

/-- Lines 610–614: `cmd.SysProcAttr = cmdSysProcAttr()` (own process
group) and `cmd.Cancel = nil`. -/
def setupNonPTYCmd (c : ExecCmd) : ExecCmd :=
  { c with setpgid := true, hasCancel := false }

/-- Modelled from the spec: when the session's context ends, `os/exec`
terminates the child iff a `Cancel` hook is installed. -/
def terminatedOnSessionEnd (c : ExecCmd) : Bool := c.hasCancel

/-- Command for the C6 witness (a context-bound exec command, which by
default carries a kill-on-cancel hook). -/
def w6Cmd : ExecCmd :=
  { name := "sleep", args := ["60"], setpgid := false, hasCancel := true }

/-! ## `Server.Shutdown` (lines 1196–1217) -/

/-- `Server.Shutdown`: races `Close` (run in a goroutine) against
`ctx.Done()` in a `select`, then re-checks `ctx.Err()` so cancellation
takes precedence, wrapping any resulting error as `"close server: …"`.
`selectCtxFirst` records whether the `select` took the `ctx.Done()`
branch; `ctxErrAtRecheck` whether `ctx.Err() != nil` held at the re-check;
`closeResult` is the error returned by `Close` (when that branch was
taken). -/
def shutdownModel (closeResult : Option String) (ctxErrVal : String)
    (selectCtxFirst : Bool) (ctxErrAtRecheck : Bool) : Option String :=
  let err : Option String :=
    if selectCtxFirst then some ctxErrVal else closeResult
  let err := if ctxErrAtRecheck then some ctxErrVal else err
  match err with
  | some e => some ("close server: " ++ e)
  | none => none

/-! ## Theorems: supporting lemmas and the specification claims -/

theorem lastRawMagic_spec (env : List String) :
    (env.foldl
      (fun acc kv =>
        if goStartsWith kv MagicSessionTypeEnvironmentVariable then
          goTrimPre kv (MagicSessionTypeEnvironmentVariable ++ "=")
        else acc) "") = lastRawMagic env := by
  suffices h : ∀ (init : String),
      env.foldl
        (fun acc kv =>
          if goStartsWith kv MagicSessionTypeEnvironmentVariable then
            goTrimPre kv (MagicSessionTypeEnvironmentVariable ++ "=")
          else acc) init =
      (match env.reverse.find?
          (fun kv => goStartsWith kv MagicSessionTypeEnvironmentVariable) with
        | some kv => goTrimPre kv (MagicSessionTypeEnvironmentVariable ++ "=")
        | none => init) by
    exact h ""
  induction env with
  | nil => intro init; rfl
  | cons a l ih =>
    intro init
    simp only [List.foldl_cons, List.reverse_cons, List.find?_append]
    rw [ih]
    cases hfind : l.reverse.find?
        (fun kv => goStartsWith kv MagicSessionTypeEnvironmentVariable) with
    | some kv => simp [hfind]
    | none =>
      simp only [hfind, Option.none_orElse]
      by_cases hp : goStartsWith a MagicSessionTypeEnvironmentVariable
      · simp [List.find?, hp]
      · simp [List.find?, hp]

/-- C4 — the claim as frozen is refuted at the env entry
`CODER_SSH_SESSION_TYPEX=vscode`: its key is `CODER_SSH_SESSION_TYPEX`, not
the magic variable, so the claim predicts session type `ssh` and an
unchanged environment; the code's prefix test (which omits the `=`) matches
the entry, fails to trim it, and classifies the whole entry as `unknown`. -/
theorem extractMagicSessionType_claim_counterexample :
    (extractMagicSessionType ["CODER_SSH_SESSION_TYPEX=vscode"]).1 =
        MagicSessionType.unknown ∧
      specMagicTypeByKey ["CODER_SSH_SESSION_TYPEX=vscode"] =
        MagicSessionType.ssh ∧
      MagicSessionType.unknown ≠ MagicSessionType.ssh := by
  decide

/-- C4 (amended) — `extractMagicSessionType` derives the session type from
the last env entry that starts with the string `CODER_SSH_SESSION_TYPE`
(not from the last entry whose key equals it); the raw value is that entry
with a leading `CODER_SSH_SESSION_TYPE=` removed when present, otherwise
the whole entry; the lowercased value maps `""`/`ssh` to `ssh`, `vscode` to
`vscode`, `jetbrains` to `jetbrains` and anything else to `unknown`; and
the returned environment is the input with exactly the entries starting
with `CODER_SSH_SESSION_TYPE=` removed. -/
theorem extractMagicSessionType_characterization (env : List String) :
    extractMagicSessionType env =
      (classifyMagic (lastRawMagic env), lastRawMagic env,
        env.filter (fun kv =>
          !(goStartsWith kv (MagicSessionTypeEnvironmentVariable ++ "=")))) := by
  unfold extractMagicSessionType
  rw [lastRawMagic_spec]

theorem getLast?_cons_append_singleton {α : Type} (a x : α) (l : List α) :
    (a :: (l ++ [x])).getLast? = some x := by
  rw [← List.cons_append, List.getLast?_append_cons]
  rfl

theorem handlerBody_shape (hin : HandlerInput) (sess : SessionInput)
    (env1 : List String) :
    reportEvents (handlerBody hin sess env1).1 = [] ∧
    disconnectCodes (handlerBody hin sess env1).1 = [] ∧
    exitCodeOf (handlerBody hin sess env1).2.1 =
      (exitStatusCodes (handlerBody hin sess env1).1).headD 0 ∧
    (∀ ev, (handlerBody hin sess env1).1.getLast? = some ev →
      isDisconnectedEv ev = false) := by
  simp only [handlerBody, sessExit, trackOnce]
  repeat' split
  all_goals
    refine ⟨?_, ?_, ?_, ?_⟩ <;>
      simp [exitStatusCodes, reportEvents, disconnectCodes, exitCodeOf,
        isDisconnectedEv]

/-- C1 — the claim as frozen ("ReportConnection is invoked if and only if
the session was admitted") is refuted by an admitted JetBrains session: the
session is admitted (`admitted = true`) yet the handler never invokes
`ReportConnection` (`reportSession` is set to `false` for
`MagicSessionTypeJetBrains`, lines 411–414). -/
theorem sessionHandler_report_counterexample :
    ({ blockFileTransfer := false, experimentalContainers := false,
       admitted := true, x11Handled := false, sftpResult := SftpOutcome.serveClean,
       runResult := RunOutcome.success, processStarted := true
       : HandlerInput }).admitted = true ∧
    reportEvents (sessionHandler
      { blockFileTransfer := false, experimentalContainers := false,
        admitted := true, x11Handled := false, sftpResult := SftpOutcome.serveClean,
        runResult := RunOutcome.success, processStarted := true }
      { env := ["CODER_SSH_SESSION_TYPE=jetbrains"], subsystem := "",
        command := [], hasX11 := false }) = [] := by
  constructor
  · rfl
  · decide

/-- C1 (amended) — `ReportConnection` is invoked (exactly once) iff the
session was refused admission or its magic type is not `jetbrains`; per
invocation the `disconnected` callback fires exactly once, as the last
action of the handler; it carries `1` on the refused-admission path (where
the session is closed without an `Exit`), and otherwise the first code
passed to `Exit` — or `0`, the tracker's zero value, when the handler
returns without any `Exit` (SFTP server initialization failure). -/
theorem sessionHandler_report_disconnect (hin : HandlerInput)
    (sess : SessionInput) :
    (reportEvents (sessionHandler hin sess) =
      if hin.admitted = false ∨
          (extractMagicSessionType sess.env).1 ≠ MagicSessionType.jetbrains
      then [(extractMagicSessionType sess.env).1] else []) ∧
    (disconnectCodes (sessionHandler hin sess) =
      if hin.admitted = false then [1]
      else if (extractMagicSessionType sess.env).1 ≠
          MagicSessionType.jetbrains
      then [(exitStatusCodes (sessionHandler hin sess)).headD 0]
      else []) ∧
    ((sessionHandler hin sess).getLast?.map isDisconnectedEv = some true ↔
      (hin.admitted = false ∨
        (extractMagicSessionType sess.env).1 ≠
          MagicSessionType.jetbrains)) := by
  obtain ⟨hrc, hdc, hcode, hlast⟩ :=
    handlerBody_shape hin sess (extractMagicSessionType sess.env).2.2
  have hlastBody : ((handlerBody hin sess
        (extractMagicSessionType sess.env).2.2).1.getLast?.map
      isDisconnectedEv) ≠ some true := by
    cases hopt : (handlerBody hin sess
        (extractMagicSessionType sess.env).2.2).1.getLast? with
    | none => simp
    | some ev => simp [hlast ev hopt]
  cases hadm : hin.admitted with
  | false =>
    refine ⟨?_, ?_, ?_⟩ <;>
      simp [sessionHandler, hadm, reportEvents, disconnectCodes,
        isDisconnectedEv]
  | true =>
    by_cases hj : (extractMagicSessionType sess.env).1 =
        MagicSessionType.jetbrains
    · have htr : sessionHandler hin sess =
          (handlerBody hin sess (extractMagicSessionType sess.env).2.2).1 := by
        simp [sessionHandler, hadm, hj]
      refine ⟨?_, ?_, ?_⟩
      · simp [htr, hadm, hj, hrc]
      · simp [htr, hadm, hj, hdc]
      · rw [htr]
        exact iff_of_false hlastBody (by simp [hadm, hj])
    · have htr : sessionHandler hin sess =
          Event.reportConnection (extractMagicSessionType sess.env).1 ::
            (handlerBody hin sess (extractMagicSessionType sess.env).2.2).1 ++
            [Event.disconnected
              (exitCodeOf (handlerBody hin sess
                (extractMagicSessionType sess.env).2.2).2.1)
              (handlerBody hin sess
                (extractMagicSessionType sess.env).2.2).2.2] := by
        simp [sessionHandler, hadm, hj]
      refine ⟨?_, ?_, ?_⟩
      · rw [htr]
        simp only [reportEvents] at hrc
        simp only [reportEvents, List.cons_append, List.filterMap_cons,
          List.filterMap_append]
        rw [hrc]
        simp [hadm, hj]
      · rw [htr]
        simp only [disconnectCodes, exitStatusCodes] at hdc hcode
        simp only [disconnectCodes, exitStatusCodes, List.cons_append,
          List.filterMap_cons, List.filterMap_append]
        rw [hdc, hcode]
        simp [hj]
      · rw [htr]
        refine iff_of_true ?_ (Or.inr hj)
        rw [List.cons_append, getLast?_cons_append_singleton]
        rfl

/-- C2 — `fileTransferBlocked` returns true iff `BlockFileTransfer` is set
and either the subsystem is `sftp` or the basename of the first command
token is one of `nc`, `rsync`, `scp`, `sftp`; and when it returns true the
dispatcher starts no process, writes exactly
`"\x02File transfer has been disabled.\n"` when the subsystem is empty
(and nothing otherwise), and exits the session with code 65. -/
theorem fileTransferBlocked_spec (hin : HandlerInput) (sess : SessionInput)
    (hadm : hin.admitted = true) :
    (fileTransferBlocked hin.blockFileTransfer sess.subsystem sess.command =
        true ↔
      hin.blockFileTransfer = true ∧ (sess.subsystem = "sftp" ∨
        ∃ c cs, sess.command = c :: cs ∧
          filepathBase c ∈ BlockedFileTransferCommands)) ∧
    (fileTransferBlocked hin.blockFileTransfer sess.subsystem sess.command =
        true →
      ftMessage = "\x02File transfer has been disabled.\n" ∧
      (sessionHandler hin sess).count Event.startProcess = 0 ∧
      writtenBytes (sessionHandler hin sess) =
        (if sess.subsystem = "" then [ftMessage] else []) ∧
      exitStatusCodes (sessionHandler hin sess) = [65]) := by
  constructor
  · unfold fileTransferBlocked
    cases hb : hin.blockFileTransfer with
    | false => simp
    | true =>
      simp only [Bool.not_true, Bool.false_eq_true, if_false, true_and]
      by_cases hs : sess.subsystem = "sftp"
      · simp [hs]
      · simp only [hs, if_neg hs, false_or]
        cases sess.command with
        | nil => simp
        | cons c cs =>
          simp only [decide_eq_true_eq]
          constructor
          · intro h
            exact ⟨c, cs, rfl, by simpa using h⟩
          · rintro ⟨c', cs', heq, hmem⟩
            cases heq
            simpa using hmem
  · intro hblk
    refine ⟨rfl, ?_, ?_, ?_⟩ <;>
    · cases hj : decide ((extractMagicSessionType sess.env).1 =
          MagicSessionType.jetbrains) <;>
      · first
        | (simp only [decide_eq_true_eq] at hj
           simp [sessionHandler, handlerBody, hadm, hj, hblk, writtenBytes,
             exitStatusCodes, exitCodeOf, sessExit, trackOnce,
             BlockedFileTransferErrorCode] <;>
           split <;> simp)
        | (simp only [decide_eq_false_iff_not] at hj
           simp [sessionHandler, handlerBody, hadm, hj, hblk, writtenBytes,
             exitStatusCodes, exitCodeOf, sessExit, trackOnce,
             BlockedFileTransferErrorCode] <;>
           split <;> simp)

/-- C2 witness: the blocked-`scp` session is refused with the exact message
and exit code 65, and no process is started. -/
theorem fileTransferBlocked_spec_witness :
    fileTransferBlocked w2Hin.blockFileTransfer w2Sess.subsystem
        w2Sess.command = true ∧
      (sessionHandler w2Hin w2Sess).count Event.startProcess = 0 ∧
      writtenBytes (sessionHandler w2Hin w2Sess) = [ftMessage] ∧
      exitStatusCodes (sessionHandler w2Hin w2Sess) = [65] := by
  have h := (fileTransferBlocked_spec w2Hin w2Sess rfl).2 (by decide)
  exact ⟨by decide, h.2.1, by rw [h.2.2.1]; decide, h.2.2.2⟩

/-- C3 — for a session routed to EXEC (empty subsystem, transfer not
blocked, x11 setup not failing), the runner outcome maps to the reported
exit status exactly as the claim states: `ExitError(c)` reports `c`, with
`-1` remapped to 255; any other error reports 229; success reports 0. -/
theorem execExitCodes_spec (hin : HandlerInput) (sess : SessionInput)
    (hadm : hin.admitted = true)
    (hss : sess.subsystem = "")
    (hblk : fileTransferBlocked hin.blockFileTransfer sess.subsystem
      sess.command = false)
    (hx : sess.hasX11 = true → hin.x11Handled = true) :
    exitStatusCodes (sessionHandler hin sess) =
      [match hin.runResult with
        | RunOutcome.exitError c => if c = -1 then (255 : Int) else c
        | RunOutcome.failure _ => 229
        | RunOutcome.success => 0] := by
  rw [hss] at hblk
  have hx11 : ¬(sess.hasX11 = true ∧ hin.x11Handled = false) := by
    rintro ⟨h1, h2⟩
    simp [hx h1] at h2
  by_cases hj : (extractMagicSessionType sess.env).1 =
      MagicSessionType.jetbrains <;>
    cases hr : hin.runResult <;>
      cases hps : hin.processStarted <;>
        simp [sessionHandler, handlerBody, hadm, hj, hblk, hss, hx11, hr, hps,
          exitStatusCodes, sessExit, trackOnce, exitCodeOf,
          MagicSessionErrorCode, List.filterMap_append, List.filterMap_cons]

/-- C3 witness: a runner returning `ExitError(-1)` makes the dispatcher
report exit status 255. -/
theorem execExitCodes_spec_witness :
    exitStatusCodes (sessionHandler w3Hin w3Sess) = [255] := by
  have h := execExitCodes_spec w3Hin w3Sess rfl rfl (by decide)
    (fun hh => by simp [w3Sess] at hh)
  simpa using h

theorem splitWordAux_rem_length (m : SQMode) (buf input : List Char) :
    ∀ w rem, splitWordAux m buf input = Except.ok (w, rem) →
      rem.length ≤ input.length := by
  induction m, buf, input using splitWordAux.induct <;>
    intro w rem h <;>
    rw [splitWordAux.eq_def] at h <;>
    (try simp +decide [*] at h) <;>
    (try simp only [List.length_cons, List.length_nil]) <;>
    first
    | omega
    | (exact le_trans (by assumption) (Nat.le_succ _))
    | (rename_i ih
       exact le_trans (ih w rem h) (by omega))
    | (obtain ⟨h1, h2⟩ := h
       subst h2
       simp)

theorem splitWordAux_raw_cons_lt (c : Char) (cs buf w rem : List Char)
    (hc : c ∉ sqSplitChars)
    (h : splitWordAux SQMode.raw buf (c :: cs) = Except.ok (w, rem)) :
    rem.length < (c :: cs).length := by
  rw [splitWordAux.eq_def] at h
  simp only at h
  by_cases h1 : c = '\''
  · rw [if_pos h1] at h
    have := splitWordAux_rem_length _ _ _ _ _ h
    simp only [List.length_cons]
    omega
  · rw [if_neg h1] at h
    by_cases h2 : c = '"'
    · rw [if_pos h2] at h
      have := splitWordAux_rem_length _ _ _ _ _ h
      simp only [List.length_cons]
      omega
    · rw [if_neg h2] at h
      by_cases h3 : c = '\\'
      · rw [if_pos h3] at h
        cases cs with
        | nil => simp at h
        | cons c2 cs2 =>
          simp only at h
          by_cases h4 : c2 = '\n'
          · rw [if_pos h4] at h
            have := splitWordAux_rem_length _ _ _ _ _ h
            simp only [List.length_cons]
            omega
          · rw [if_neg h4] at h
            have := splitWordAux_rem_length _ _ _ _ _ h
            simp only [List.length_cons]
            omega
      · rw [if_neg h3, if_neg hc] at h
        have := splitWordAux_rem_length _ _ _ _ _ h
        simp only [List.length_cons]
        omega

theorem sqSplitFuel_fuel_irrel (fuel : Nat) :
    ∀ (fuel' : Nat) (input : List Char), input.length < fuel →
      input.length < fuel' →
      sqSplitFuel fuel input = sqSplitFuel fuel' input := by
  induction fuel with
  | zero => intro fuel' input h; omega
  | succ fuel ih =>
    intro fuel' input h h'
    cases fuel' with
    | zero => omega
    | succ fuel' =>
      cases input with
      | nil => rfl
      | cons c cs =>
        simp only [sqSplitFuel, List.length_cons] at h h' ⊢
        by_cases h1 : c ∈ sqSplitChars
        · simp only [if_pos h1]
          exact ih fuel' cs (by omega) (by omega)
        · simp only [if_neg h1]
          by_cases h2 : c = '\\' ∧ cs = []
          · simp only [if_pos h2]
          · simp only [if_neg h2]
            by_cases h3 : c = '\\' ∧ cs.head? = some '\n'
            · simp only [if_pos h3]
              exact ih fuel' cs.tail
                (by simp only [List.length_tail]; omega)
                (by simp only [List.length_tail]; omega)
            · simp only [if_neg h3]
              cases hsw : splitWordAux SQMode.raw [] (c :: cs) with
              | error e => rfl
              | ok p =>
                obtain ⟨w, rem⟩ := p
                have hlt := splitWordAux_raw_cons_lt c cs [] w rem h1 hsw
                simp only [List.length_cons] at hlt
                simp only
                rw [ih fuel' rem (by omega) (by omega)]

theorem shebang_script_ne_empty (script : String)
    (h : goStartsWith (goTrimSpace script) "#!" = true) : script.length ≠ 0 := by
  intro hlen
  have : script = "" := by
    cases script with
    | mk data =>
      cases data with
      | nil => rfl
      | cons a l => simp [String.length] at hlen
  subst this
  simp +decide [goStartsWith, goTrimSpace] at h

/-- C5 — `CreateCommand` builds argv as the claim states: empty script
gives `[shell, "-l"]` (just `[shell]` on Windows); a non-shebang script
gives `[shell, caller, script]` with caller `-c` (`/c` on Windows); a
shebang script whose first line splits into words `w0 :: ws` gives
`[w0, ws…, caller, script]` with the whole script still the last argument;
and a shell-word split failure makes `CreateCommand` return an error. -/
theorem createCommand_argv_spec (isWindows : Bool) (statOk : String → Bool)
    (cfg : SrvConfig) (ei : EnvInfoer) (script : String)
    (addEnv : List String) (shell dir : String) (envv : List String)
    (henv : CommandEnv statOk cfg ei addEnv = Except.ok (shell, dir, envv))
    (hmod : ∀ n a, ei.modifyCommand n a = (n, a)) :
    (script = "" →
      CreateCommand isWindows statOk cfg ei script addEnv =
        Except.ok (PtyCmd.mk shell (if isWindows then [] else ["-l"]) dir
          (envv ++ [sshClientEnv, sshConnectionEnv]))) ∧
    (goStartsWith (goTrimSpace script) "#!" = false → script ≠ "" →
      CreateCommand isWindows statOk cfg ei script addEnv =
        Except.ok (PtyCmd.mk shell
          [(if isWindows then "/c" else "-c"), script] dir
          (envv ++ [sshClientEnv, sshConnectionEnv]))) ∧
    (∀ w0 ws, goStartsWith (goTrimSpace script) "#!" = true →
      shebangWords script = Except.ok (w0 :: ws) →
      CreateCommand isWindows statOk cfg ei script addEnv =
        Except.ok (PtyCmd.mk w0
          (ws ++ [(if isWindows then "/c" else "-c"), script]) dir
          (envv ++ [sshClientEnv, sshConnectionEnv]))) ∧
    (∀ e, goStartsWith (goTrimSpace script) "#!" = true →
      shebangWords script = Except.error e →
      CreateCommand isWindows statOk cfg ei script addEnv =
        Except.error (CreateCmdErr.splitShebang e)) := by
  refine ⟨?_, ?_, ?_, ?_⟩
  · intro hempty
    subst hempty
    simp +decide [CreateCommand, createCommandArgv, henv, hmod]
  · intro hsb hne
    have hlen : ¬script.length = 0 := by
      intro h0
      apply hne
      cases script with
      | mk data =>
        cases data with
        | nil => rfl
        | cons a l => simp [String.length] at h0
    simp [CreateCommand, createCommandArgv, henv, hmod, hsb, hlen]
  · intro w0 ws hsb hwords
    have hlen := shebang_script_ne_empty script hsb
    simp [CreateCommand, createCommandArgv, henv, hmod, hsb, hwords, hlen]
  · intro e hsb hwords
    simp [CreateCommand, createCommandArgv, henv, hsb, hwords]

/-- C5 witness (spec scenario 4): the shebang script
`"#!/usr/bin/env python3\nprint(1)"` yields argv
`["/usr/bin/env", "python3", "-c", <script>]`. -/
theorem createCommand_argv_spec_witness :
    CreateCommand false (fun _ => false) wCfg wEnvInfo
        "#!/usr/bin/env python3\nprint(1)" [] =
      Except.ok (PtyCmd.mk "/usr/bin/env"
        ["python3", "-c", "#!/usr/bin/env python3\nprint(1)"]
        "/home/coder"
        (["PATH=/usr/bin", "USER=coder", "LOGNAME=coder",
          "SHELL=/bin/bash"] ++ [sshClientEnv, sshConnectionEnv])) := by
  have h := (createCommand_argv_spec false (fun _ => false) wCfg wEnvInfo
      "#!/usr/bin/env python3\nprint(1)" [] "/bin/bash" "/home/coder"
      ["PATH=/usr/bin", "USER=coder", "LOGNAME=coder", "SHELL=/bin/bash"]
      rfl (fun n a => rfl)).2.2.1 "/usr/bin/env" ["python3"]
      (by decide) rfl
  simpa using h

/-- C8 — for every command `CreateCommand` successfully builds: the
working directory is `WorkingDirectory()` when non-empty and stat-able and
otherwise the user's home directory; and the environment is the user base
environment, the forwarded env, then `USER`/`LOGNAME`/`SHELL`, transformed
by `UpdateEnv`, with `SSH_CLIENT="0.0.0.0 0 0"` and
`SSH_CONNECTION="0.0.0.0 0 0.0.0.0 0"` appended last. -/
theorem createCommand_env_dir_spec (isWindows : Bool)
    (statOk : String → Bool) (cfg : SrvConfig) (ei : EnvInfoer)
    (script : String) (addEnv : List String) (cmd : PtyCmd)
    (hok : CreateCommand isWindows statOk cfg ei script addEnv =
      Except.ok cmd) :
    (∃ username shell updated,
      ei.username = Except.ok username ∧
      ei.shellOf username = Except.ok shell ∧
      cfg.updateEnv (ei.environ ++ (addEnv ++
        ["USER=" ++ username, "LOGNAME=" ++ username, "SHELL=" ++ shell])) =
        Except.ok updated ∧
      cmd.env = updated ++ [sshClientEnv, sshConnectionEnv]) ∧
    (cfg.workingDirectory ≠ "" ∧ statOk cfg.workingDirectory = true →
      cmd.dir = cfg.workingDirectory) ∧
    (cfg.workingDirectory = "" ∨ statOk cfg.workingDirectory = false →
      ei.homeDir = Except.ok cmd.dir) := by
  unfold CreateCommand CommandEnv at hok
  cases hu : ei.username with
  | error e => simp [hu] at hok
  | ok username =>
    rw [hu] at hok
    simp only at hok
    cases hs : ei.shellOf username with
    | error e => simp [hs] at hok
    | ok shell =>
      rw [hs] at hok
      simp only at hok
      by_cases hd : cfg.workingDirectory = "" ∨
          statOk cfg.workingDirectory = false
      · rw [if_pos hd] at hok
        cases hh : ei.homeDir with
        | error e => simp [hh] at hok
        | ok homedir =>
          rw [hh] at hok
          simp only at hok
          simp only [List.append_assoc] at hok
          cases hue : cfg.updateEnv (ei.environ ++ (addEnv ++
              ["USER=" ++ username, "LOGNAME=" ++ username,
                "SHELL=" ++ shell])) with
          | error e => simp [hue] at hok
          | ok updated =>
            rw [hue] at hok
            simp only at hok
            cases hargv : createCommandArgv isWindows shell script with
            | error e => simp [hargv] at hok
            | ok na =>
              rw [hargv] at hok
              simp only [Except.ok.injEq] at hok
              subst hok
              refine ⟨⟨username, shell, updated, rfl, hs, hue, rfl⟩, ?_, ?_⟩
              · intro hwd
                exact absurd hd (by simp [hwd.1, hwd.2])
              · intro _
                rfl
      · rw [if_neg hd] at hok
        simp only at hok
        simp only [List.append_assoc] at hok
        cases hue : cfg.updateEnv (ei.environ ++ (addEnv ++
            ["USER=" ++ username, "LOGNAME=" ++ username,
              "SHELL=" ++ shell])) with
        | error e => simp [hue] at hok
        | ok updated =>
          rw [hue] at hok
          simp only at hok
          cases hargv : createCommandArgv isWindows shell script with
          | error e => simp [hargv] at hok
          | ok na =>
            rw [hargv] at hok
            simp only [Except.ok.injEq] at hok
            subst hok
            refine ⟨⟨username, shell, updated, rfl, hs, hue, rfl⟩, ?_, ?_⟩
            · intro _
              rfl
            · intro hwd
              exact absurd hwd hd

/-- C8 witness: with an empty configured working directory, the login
shell built by `CreateCommand` runs in the user's home directory. -/
theorem createCommand_env_dir_spec_witness :
    wEnvInfo.homeDir = Except.ok (PtyCmd.mk "/bin/bash" ["-l"] "/home/coder"
      (["PATH=/usr/bin", "USER=coder", "LOGNAME=coder", "SHELL=/bin/bash"] ++
        [sshClientEnv, sshConnectionEnv])).dir :=
  (createCommand_env_dir_spec false (fun _ => false) wCfg wEnvInfo "" []
    (PtyCmd.mk "/bin/bash" ["-l"] "/home/coder"
      (["PATH=/usr/bin", "USER=coder", "LOGNAME=coder", "SHELL=/bin/bash"] ++
        [sshClientEnv, sshConnectionEnv]))
    rfl).2.2 (Or.inl rfl)

theorem writeLinesCR_unbounded (ls : List (List Char)) :
    ∀ (o : String), writeLinesCR (Sink.mk none o) ls =
      (Sink.mk none
        (o ++ strConcat (ls.map (fun l => String.mk l ++ "\r\n"))),
        Except.ok ()) := by
  induction ls with
  | nil =>
    intro o
    simp [writeLinesCR, strConcat, String.append_empty]
  | cons l ls ih =>
    intro o
    simp [writeLinesCR, sinkWriteLine, strConcat, ih, String.append_assoc]

theorem writeWCR_unbounded (o : String) (src : String) :
    writeWCR (Sink.mk none o) src =
      (Sink.mk none (o ++ crlfText src),
        if linesFit src = true then Except.ok ()
        else Except.error "read line: bufio.Scanner: token too long") := by
  unfold writeWCR
  rw [writeLinesCR_unbounded]
  simp only [scanLines, linesFit, crlfText]
  by_cases h : (rawScanTokens src.data).all lineFits = true
  · simp [h]
  · simp only [Bool.not_eq_true] at h
    simp [h]

theorem showAnnouncementBanner_unbounded (o : String) (b : BannerConfig)
    (hb : bannerFits b = true) :
    showAnnouncementBanner (Sink.mk none o) b =
      (Sink.mk none (o ++ bannerText b), Except.ok ()) := by
  unfold showAnnouncementBanner bannerText
  unfold bannerFits at hb
  by_cases hc : b.enabled = true ∧ b.message ≠ ""
  · rw [if_pos hc] at hb ⊢
    rw [if_pos hc, writeWCR_unbounded, if_pos hb]
  · simp [hc, String.append_empty]

theorem showBanners_unbounded (bs : List BannerConfig) :
    ∀ (o : String), bs.all bannerFits = true →
      showBanners (Sink.mk none o) bs =
        Sink.mk none (o ++ strConcat (bs.map bannerText)) := by
  induction bs with
  | nil =>
    intro o _
    simp [showBanners, strConcat, String.append_empty]
  | cons b bs ih =>
    intro o hall
    simp only [List.all_cons, Bool.and_eq_true] at hall
    simp [showBanners, showAnnouncementBanner_unbounded o b hall.1, strConcat,
      ih _ hall.2, String.append_assoc]

theorem showMOTD_unbounded (openFile : String → OpenResult) (o : String)
    (filename : String) :
    ((showMOTD openFile (Sink.mk none o) filename).1).out =
      o ++ (if filename = "" then ""
        else
          match openFile filename with
          | OpenResult.notExist => ""
          | OpenResult.openFailed _ => ""
          | OpenResult.content text => crlfText text) := by
  unfold showMOTD
  by_cases hf : filename = ""
  · simp [hf, String.append_empty]
  · simp only [hf, if_neg hf]
    cases openFile filename with
    | notExist => simp [String.append_empty]
    | openFailed m => simp [String.append_empty]
    | content text => simp [writeWCR_unbounded]

/-- C9 — the claim as frozen ("the MOTD is emitted if and only if
`.hushlogin` does not exist in the home directory and `MOTDFile()` is
non-empty") is refuted when the configured MOTD file does not exist:
`.hushlogin` is absent and `MOTDFile()` is non-empty, yet the session
output stays empty — `showMOTD` silently skips a missing file. -/
theorem startPTYSession_motd_counterexample :
    cexC9Cfg.motdFile ≠ "" ∧
    isQuietLogin cexC9Inp.homeDir cexC9Inp.statExists "" = false ∧
    (startPTYSessionModel cexC9Cfg cexC9Inp (Sink.mk none "") "" []).1.out =
      "" := by
  refine ⟨by decide, rfl, rfl⟩

/-- C9 (amended) — in a PTY session with empty raw command, on a channel
that accepts every write and with every enabled, non-blank banner's text
within the scanner's 64 KiB line limit, each such banner is emitted in
list order with CRLF translation, followed by the MOTD's lines below the
limit iff `.hushlogin` does not exist in the home directory, `MOTDFile()`
is non-empty, and the MOTD file opens successfully; and banner/MOTD
outcomes never affect whether the session proceeds: the runner result is
determined solely by `pty.Start`. -/
theorem startPTYSession_prelude_spec (cfg : SrvConfig) (inp : PTYRunInput)
    (env : List String) (hb : cfg.banners.all bannerFits = true) :
    ((startPTYSessionModel cfg inp (Sink.mk none "") "" env).1.out =
      strConcat (cfg.banners.map bannerText) ++ motdText inp cfg.motdFile) ∧
    (∀ (sk : Sink) (raw : String),
      (startPTYSessionModel cfg inp sk raw env).2 =
        match inp.startErr with
        | some e => Except.error ("start command: " ++ e)
        | none => Except.ok (env ++ ["TERM=" ++ inp.term])) := by
  constructor
  · unfold startPTYSessionModel motdText
    have hl : isLoginShell "" = true := rfl
    simp only [hl, if_true, eq_self_iff_true]
    rw [showBanners_unbounded _ _ hb]
    by_cases hq : isQuietLogin inp.homeDir inp.statExists "" = true
    · simp only [hq, Bool.not_true, Bool.false_eq_true, if_false, if_true]
      cases inp.startErr <;>
        simp [String.append_empty]
    · have hq' : isQuietLogin inp.homeDir inp.statExists "" = false := by
        cases hqq : isQuietLogin inp.homeDir inp.statExists "" with
        | false => rfl
        | true => exact absurd hqq hq
      simp only [hq', Bool.not_false, if_true, Bool.false_eq_true, if_false]
      cases inp.startErr <;>
        simp [showMOTD_unbounded, String.append_empty]
  · intro sk raw
    unfold startPTYSessionModel
    cases inp.startErr <;> simp

/-- C9 witness: a short enabled banner fits the scanner limit; the session
output of the concrete PTY run is exactly that banner followed by the MOTD,
both CRLF-translated. -/
theorem startPTYSession_prelude_spec_witness :
    w9Cfg.banners.all bannerFits = true ∧
    (startPTYSessionModel w9Cfg w9Inp (Sink.mk none "") "" []).1.out =
      strConcat (w9Cfg.banners.map bannerText) ++
        motdText w9Inp w9Cfg.motdFile :=
  ⟨by decide, (startPTYSession_prelude_spec w9Cfg w9Inp [] (by decide)).1⟩

/-- C7 — while `closing` is set no listener, connection, session or
process is admitted (the listener add blocks, the others fail leaving the
state unchanged) and a concurrent `Close` caller receives
`"server is closed"`; when `Close` runs to completion it leaves `closing`
cleared, and `Serve` with a fresh listener on the resulting state (host
keys still configured) admits the listener. -/
theorem close_tracker_invariant (s : ServerState) (l c ss p : Nat)
    (e : Option String) :
    (s.closing = true →
      trackListenerAdd s l = ListenerTrack.blocked ∧
      trackConnAdd s l c = (false, s) ∧
      trackSessionAdd s ss = (false, s) ∧
      trackProcessAdd s p = (false, s) ∧
      (closeServer s e).2.2 = Except.error "server is closed") ∧
    (s.closing = false →
      ((closeServer s e).1).closing = false ∧
      (s.hostSigners ≠ 0 →
        serve (closeServer s e).1 l =
          ServeOutcome.serving
            { (closeServer s e).1 with listeners := [l] })) := by
  constructor
  · intro hc
    refine ⟨?_, ?_, ?_, ?_, ?_⟩ <;>
      simp [trackListenerAdd, trackConnAdd, trackSessionAdd,
        trackProcessAdd, closeServer, hc]
  · intro hc
    refine ⟨?_, ?_⟩
    · simp [closeServer, hc]
    · intro hk
      simp [closeServer, serve, trackListenerAdd, hc, hk]

/-- C7 witness: on the closing state every add is refused and a second
`Close` reports `"server is closed"`; running `Close` on the open state
clears `closing` and a subsequent `Serve` with listener 9 is admitted. -/
theorem close_tracker_invariant_witness :
    trackSessionAdd w7Closing 3 = (false, w7Closing) ∧
    (closeServer w7Closing none).2.2 = Except.error "server is closed" ∧
    ((closeServer w7Open none).1).closing = false ∧
    serve (closeServer w7Open none).1 9 =
      ServeOutcome.serving
        { (closeServer w7Open none).1 with listeners := [9] } := by
  have h1 := (close_tracker_invariant w7Closing 9 2 3 4 none).1 rfl
  have h2 := (close_tracker_invariant w7Open 9 2 3 4 none).2 rfl
  exact ⟨h1.2.2.1, h1.2.2.2.2, h2.1, h2.2 (by decide)⟩

/-- C6 — the non-PTY runner strips the command's `Cancel` hook, so the
child is never terminated by the session context ending; the started
process is admitted to the tracker (server not closing) and every tracked
process is sent the group signal when `Server.Close` runs. -/
theorem nonPTY_survives_session_end (c : ExecCmd) (s : ServerState)
    (p : Nat) (e : Option String) (hopen : s.closing = false) :
    ((setupNonPTYCmd c).hasCancel = false ∧
      terminatedOnSessionEnd (setupNonPTYCmd c) = false ∧
      (setupNonPTYCmd c).setpgid = true) ∧
    (trackProcessAdd s p =
      (true, { s with processes := p :: s.processes }) ∧
      p ∈ ((trackProcessAdd s p).2).processes) ∧
    (∀ s' : ServerState, s'.closing = false → p ∈ s'.processes →
      CloseAction.signalProcess p ∈ (closeServer s' e).2.1) := by
  refine ⟨⟨rfl, rfl, rfl⟩, ⟨?_, ?_⟩, ?_⟩
  · simp [trackProcessAdd, hopen]
  · simp [trackProcessAdd, hopen]
  · intro s' hc hp
    simp [closeServer, hc, hp]

/-- C6 witness: the configured `sleep 60` survives session-context end,
is tracked on the open server state, and `Close` signals it. -/
theorem nonPTY_survives_session_end_witness :
    terminatedOnSessionEnd (setupNonPTYCmd w6Cmd) = false ∧
    trackProcessAdd w7Open 4 =
      (true, { w7Open with processes := [4, 4] }) ∧
    CloseAction.signalProcess 4 ∈
      (closeServer (trackProcessAdd w7Open 4).2 none).2.1 := by
  have h := nonPTY_survives_session_end w6Cmd w7Open 4 none rfl
  refine ⟨h.1.2.1, h.2.1.1, ?_⟩
  exact h.2.2 (trackProcessAdd w7Open 4).2 (by decide) (by decide)

/-- C10 — context cancellation takes precedence over the close result:
whenever `ctx.Err()` is non-nil at the post-`select` re-check (in
particular whenever the context was done by the time `Close` finished,
even with `Close` returning nil), `Shutdown` returns an error wrapping
`ctx.Err()`; and it returns nil exactly when `Close` returned nil and the
context was never cancelled. -/
theorem shutdown_ctx_precedence (closeResult : Option String)
    (ctxErrVal : String) (selectCtxFirst ctxErrAtRecheck : Bool) :
    (ctxErrAtRecheck = true →
      shutdownModel closeResult ctxErrVal selectCtxFirst ctxErrAtRecheck =
        some ("close server: " ++ ctxErrVal)) ∧
    (shutdownModel closeResult ctxErrVal selectCtxFirst ctxErrAtRecheck =
        none ↔
      closeResult = none ∧ selectCtxFirst = false ∧
        ctxErrAtRecheck = false) := by
  constructor
  · intro hr
    simp [shutdownModel, hr]
  · cases hs : selectCtxFirst <;> cases hr : ctxErrAtRecheck <;>
      cases closeResult <;> simp [shutdownModel]

/-- C10 witness: `Close` finished first and returned nil, but the context
was already cancelled at the re-check — `Shutdown` reports the wrapped
context error. -/
theorem shutdown_ctx_precedence_witness :
    shutdownModel none "context canceled" false true =
      some ("close server: " ++ "context canceled") :=
  (shutdown_ctx_precedence none "context canceled" false true).1 rfl

end AgentSSH

